import Mathlib

/-!
Verification of the System-Monitoring-Tool repository.

The development shallowly embeds the C sources:
the delta graph encoder `show_memory_graph`, the memory computation of
`get_memory_info`, the two coexisting CPU graph encoders `show_cpu_graph`,
the cursor arithmetic of the refresh-mode renderer `show_sys_usage`,
the argument validator `vertify_arg`, the section order of `main`, and
the process operations of the concurrent coordinator.

C doubles are modelled as exact rationals, C long and int as
unbounded integers (no computation here approaches 2^31 or 2^63),
and printed output as Lean strings. A printf fixed-point conversion
with d digits is modelled by rounding the scaled rational to the
nearest integer. Where a claim evaluates the encoder at specific
decimal literals whose boundary behaviour depends on binary64
rounding, the encoder is applied to the exact binary64 values of
those literals (double345, double344); at those dyadic arguments
every subsequent operation of the encoder is exact in binary64, so
the rational evaluation coincides with the machine execution.
-/

/-- Decimal digit list of a natural number, most significant first;
the first argument is fuel (structural recursion so the kernel can
evaluate it). Empty for 0. -/
def natDigitsAux : ℕ → ℕ → List Char
  | 0, _ => []
  | _ + 1, 0 => []
  | fuel + 1, n + 1 =>
      natDigitsAux fuel ((n + 1) / 10) ++ [Nat.digitChar ((n + 1) % 10)]

/-- Decimal string of a natural number, as printf %d would print it. -/
def natStr (n : ℕ) : String :=
  if n = 0 then "0" else String.mk (natDigitsAux n n)

/-- Pad the decimal string of n on the left with zeros to width d
(fractional part of a %.df conversion). -/
def zeroPad (d n : ℕ) : String :=
  String.mk (List.replicate (d - (natStr n).length) '0') ++ natStr n

/-- Model of the printf conversion %.df applied to a rational value:
optional minus sign, integer part, dot, and d fraction digits of the
value rounded to d decimal places. -/
def fmtFrac (d : ℕ) (q : ℚ) : String :=
  (if q < 0 then "-" else "") ++
  natStr ((round (|q| * (10 : ℚ) ^ d) / (10 : ℤ) ^ d)).toNat ++ "." ++
  zeroPad d ((round (|q| * (10 : ℚ) ^ d) % (10 : ℤ) ^ d)).toNat

/-- printf %.2f. -/
def fmt2 (q : ℚ) : String := fmtFrac 2 q

/-- printf %f (six fraction digits). -/
def fmt6 (q : ℚ) : String := fmtFrac 6 q

/-- Number of iterations of the C loop `for (int i = 0; i < x; i ++)`
with a real bound x: the least natural number n with x ≤ n. -/
def posLoopCount (x : ℚ) : ℕ := (⌈x⌉).toNat

/-- Number of iterations of the C loop `for (int i = 0; i > x; i --)`
with a real bound x: the least natural number n with -n ≤ x. -/
def negLoopCount (x : ℚ) : ℕ := (⌈-x⌉).toNat

/-- stats_functions.c, show_memory_graph (identical in mySystemStats.c
and the header draft): virtualize the physical memory usage difference.
The returned string is exactly what the C function prints to stdout. -/
def show_memory_graph (curr_use previous_use : ℚ) : String :=
  "  |" ++
    (if (curr_use - previous_use < 1/100 ∧ 0 ≤ curr_use - previous_use)
        ∨ previous_use = -1 then
      "o 0.00 (" ++ fmt2 curr_use ++ ")\n"
    else if curr_use - previous_use ≤ 0 ∧ -(1/100) < curr_use - previous_use then
      "@ 0.00 (" ++ fmt2 curr_use ++ ")\n"
    else if 1/100 ≤ curr_use - previous_use then
      String.mk (List.replicate (posLoopCount ((curr_use - previous_use) * 100)) '#') ++
        "* " ++ fmt2 (curr_use - previous_use) ++ " (" ++ fmt2 curr_use ++ ")\n"
    else
      String.mk (List.replicate (negLoopCount ((curr_use - previous_use) * 100)) ':') ++
        "@ " ++ fmt2 (curr_use - previous_use) ++ " (" ++ fmt2 curr_use ++ ")\n")

-- Helper lemmas for evaluating the model at concrete rationals.

theorem round_eq_of_bounds (q : ℚ) (n : ℤ) (h1 : (n : ℚ) ≤ q + 1/2)
    (h2 : q + 1/2 < n + 1) : round q = n := by
  rw [round_eq]
  exact Int.floor_eq_iff.mpr ⟨h1, h2⟩

theorem fmt2_eval_nonneg (q : ℚ) (n : ℤ) (h0 : 0 ≤ q)
    (hr : round (q * 100) = n) :
    fmt2 q = natStr (n / 100).toNat ++ "." ++ zeroPad 2 (n % 100).toNat := by
  unfold fmt2 fmtFrac
  rw [if_neg (not_lt.mpr h0), abs_of_nonneg h0]
  norm_num [hr]

theorem fmt2_eval_neg (q : ℚ) (n : ℤ) (h0 : q < 0)
    (hr : round (-q * 100) = n) :
    fmt2 q = "-" ++ natStr (n / 100).toNat ++ "." ++ zeroPad 2 (n % 100).toNat := by
  unfold fmt2 fmtFrac
  rw [if_pos h0, abs_of_neg h0]
  rw [neg_mul] at hr
  norm_num [hr]

theorem posLoopCount_bounds (x : ℚ) (hx : 0 < x) :
    x ≤ (posLoopCount x : ℚ) ∧ (posLoopCount x : ℚ) < x + 1 := by
  have hc : 0 < ⌈x⌉ := Int.ceil_pos.mpr hx
  have ht : ((posLoopCount x : ℕ) : ℚ) = ((⌈x⌉ : ℤ) : ℚ) := by
    unfold posLoopCount
    exact_mod_cast congrArg (fun z : ℤ => (z : ℚ)) (Int.toNat_of_nonneg hc.le)
  refine ⟨?_, ?_⟩
  · rw [ht]; exact Int.le_ceil x
  · rw [ht]; exact Int.ceil_lt_add_one x

theorem negLoopCount_bounds (x : ℚ) (hx : x < 0) :
    -x ≤ (negLoopCount x : ℚ) ∧ (negLoopCount x : ℚ) < -x + 1 := by
  have hc : 0 < ⌈-x⌉ := Int.ceil_pos.mpr (by linarith)
  have ht : ((negLoopCount x : ℕ) : ℚ) = ((⌈-x⌉ : ℤ) : ℚ) := by
    unfold negLoopCount
    exact_mod_cast congrArg (fun z : ℤ => (z : ℚ)) (Int.toNat_of_nonneg hc.le)
  refine ⟨?_, ?_⟩
  · rw [ht]; exact Int.le_ceil (-x)
  · rw [ht]; exact Int.ceil_lt_add_one (-x)

/-- C1: for every pair (curr, prev) with a valid prev (prev different from
the sentinel -1), the delta graph encoder emits exactly one of four shapes
determined by diff = curr - prev: for 0 ≤ diff < 0.01 the glyph o with
magnitude 0.00; for -0.01 < diff < 0 the glyph @ with magnitude 0.00; for
diff ≥ 0.01 a run of the character # of length 100·diff rounded up,
terminated by *, with diff formatted to two decimals; for diff ≤ -0.01 a
run of the character : of the corresponding length terminated by @. The
four diff regions cover every rational diff, the run lengths are the
scale-100 loop counts, and encoding (x, x) always yields the
positive-infinitesimal glyph with magnitude 0.00. -/
theorem C1_delta_encoder_shapes :
    (∀ curr prev : ℚ, prev ≠ -1 →
      ((0 ≤ curr - prev ∧ curr - prev < 1/100 →
          show_memory_graph curr prev = "  |" ++ ("o 0.00 (" ++ fmt2 curr ++ ")\n"))
      ∧ (-(1/100) < curr - prev ∧ curr - prev < 0 →
          show_memory_graph curr prev = "  |" ++ ("@ 0.00 (" ++ fmt2 curr ++ ")\n"))
      ∧ (1/100 ≤ curr - prev →
          show_memory_graph curr prev =
            "  |" ++ (String.mk (List.replicate (posLoopCount ((curr - prev) * 100)) '#') ++
              "* " ++ fmt2 (curr - prev) ++ " (" ++ fmt2 curr ++ ")\n"))
      ∧ (curr - prev ≤ -(1/100) →
          show_memory_graph curr prev =
            "  |" ++ (String.mk (List.replicate (negLoopCount ((curr - prev) * 100)) ':') ++
              "@ " ++ fmt2 (curr - prev) ++ " (" ++ fmt2 curr ++ ")\n"))
      ∧ ((0 ≤ curr - prev ∧ curr - prev < 1/100) ∨ (-(1/100) < curr - prev ∧ curr - prev < 0)
          ∨ 1/100 ≤ curr - prev ∨ curr - prev ≤ -(1/100))
      ∧ (1/100 ≤ curr - prev →
          (curr - prev) * 100 ≤ (posLoopCount ((curr - prev) * 100) : ℚ)
          ∧ (posLoopCount ((curr - prev) * 100) : ℚ) < (curr - prev) * 100 + 1)
      ∧ (curr - prev ≤ -(1/100) →
          -((curr - prev) * 100) ≤ (negLoopCount ((curr - prev) * 100) : ℚ)
          ∧ (negLoopCount ((curr - prev) * 100) : ℚ) < -((curr - prev) * 100) + 1)))
    ∧ (∀ x : ℚ, show_memory_graph x x = "  |" ++ ("o 0.00 (" ++ fmt2 x ++ ")\n")) := by
  constructor
  · intro curr prev hprev
    refine ⟨?_, ?_, ?_, ?_, ?_, ?_, ?_⟩
    · rintro ⟨h0, h1⟩
      simp only [show_memory_graph]
      rw [if_pos (Or.inl ⟨h1, h0⟩)]
    · rintro ⟨hlow, hup⟩
      simp only [show_memory_graph]
      rw [if_neg, if_pos ⟨le_of_lt hup, hlow⟩]
      rintro (⟨-, h0⟩ | h)
      · linarith
      · exact hprev h
    · intro h
      simp only [show_memory_graph]
      rw [if_neg, if_neg, if_pos h]
      · rintro ⟨h1, -⟩
        linarith
      · rintro (⟨h1, -⟩ | hp)
        · linarith
        · exact hprev hp
    · intro h
      simp only [show_memory_graph]
      rw [if_neg, if_neg, if_neg]
      · intro h1
        linarith
      · rintro ⟨-, h2⟩
        linarith
      · rintro (⟨-, h0⟩ | hp)
        · linarith
        · exact hprev hp
    · rcases le_or_lt (1/100 : ℚ) (curr - prev) with h | h
      · exact Or.inr (Or.inr (Or.inl h))
      rcases le_or_lt (curr - prev) (-(1/100)) with h2 | h2
      · exact Or.inr (Or.inr (Or.inr h2))
      rcases le_or_lt 0 (curr - prev) with h3 | h3
      · exact Or.inl ⟨h3, h⟩
      · exact Or.inr (Or.inl ⟨h2, h3⟩)
    · intro h
      exact posLoopCount_bounds _ (by linarith)
    · intro h
      exact negLoopCount_bounds _ (by nlinarith)
  · intro x
    simp only [show_memory_graph]
    rw [if_pos (Or.inl ⟨by norm_num, by norm_num⟩)]

/-- C1 witness: the theorem applied at curr = 3/2, prev = 1, a pair with a
valid previous sample and diff = 1/2 ≥ 0.01. -/
theorem C1_delta_encoder_shapes_witness :
    ((1 : ℚ) ≠ -1) ∧
    show_memory_graph (3/2) 1 =
      "  |" ++ (String.mk (List.replicate (posLoopCount (((3:ℚ)/2 - 1) * 100)) '#') ++
        "* " ++ fmt2 ((3:ℚ)/2 - 1) ++ " (" ++ fmt2 (3/2) ++ ")\n") :=
  ⟨by norm_num,
   ((C1_delta_encoder_shapes.1 (3/2) 1 (by norm_num)).2.2.1 (by norm_num))⟩

/-- C5: on the first call of the encoder in a run the previous value is the
sentinel -1 and the output is the positive-infinitesimal glyph o with
magnitude 0.00 followed by the current value, for every current value.
The sentinel arises from the initial retained scalar -1e9 scaled by 1e-9. -/
theorem C5_first_call_sentinel :
    (∀ curr : ℚ, show_memory_graph curr (-1) = "  |" ++ ("o 0.00 (" ++ fmt2 curr ++ ")\n"))
    ∧ ((-(10^9) : ℚ) * (1/10^9) = -1) := by
  constructor
  · intro curr
    unfold show_memory_graph
    rw [if_pos (Or.inr rfl)]
  · norm_num

/-- The IEEE binary64 value the C literal 3.45 compiles to. Binary64
values in the binade [2, 4) are exactly the integer multiples of 2^-51
in range, so the stored value is 3.45 * 2^51 rounded to the nearest
integer, divided by 2^51 (the tie case does not arise here). On the
pair (double345, double344) every subsequent operation of the C
encoder is exact in binary64 arithmetic, so evaluating the rational
model show_memory_graph on these arguments reproduces the machine
execution glyph for glyph: the subtraction of two values in [2, 4) is
exact by the Sterbenz lemma, the result times 100 has numerator
2251799813685300 < 2^53 over the denominator 2^51 and is therefore an
exact product, loop counters convert to binary64 exactly, and the
branch comparisons agree because the difference lies strictly above
both 1/100 and the binary64 value of the literal 0.01. -/
def double345 : ℚ := ((round ((345 / 100 : ℚ) * 2 ^ 51) : ℤ) : ℚ) / 2 ^ 51

/-- The IEEE binary64 value the C literal 3.44 compiles to; see
double345. -/
def double344 : ℚ := ((round ((344 / 100 : ℚ) * 2 ^ 51) : ℤ) : ℚ) / 2 ^ 51

theorem double345_eq : double345 = 7768709357214106 / 2 ^ 51 := by
  unfold double345
  rw [round_eq_of_bounds _ 7768709357214106 (by norm_num) (by norm_num)]
  norm_num

theorem double344_eq : double344 = 7746191359077253 / 2 ^ 51 := by
  unfold double344
  rw [round_eq_of_bounds _ 7746191359077253 (by norm_num) (by norm_num)]
  norm_num

theorem double_diff_eq : double345 - double344 = 22517998136853 / 2 ^ 51 := by
  rw [double345_eq, double344_eq]
  norm_num

theorem posLoopCount_double_diff :
    posLoopCount (22517998136853 / 2 ^ 51 * 100) = 2 := by
  unfold posLoopCount
  rw [show ⌈(22517998136853 / 2 ^ 51 * 100 : ℚ)⌉ = (2 : ℤ) from
    Int.ceil_eq_iff.mpr ⟨by norm_num, by norm_num⟩]
  rfl

theorem show_memory_graph_double345_344 :
    show_memory_graph double345 double344 = "  |##* 0.01 (3.45)\n" := by
  have hprev : double344 ≠ -1 := by
    rw [double344_eq]
    norm_num
  unfold show_memory_graph
  rw [double_diff_eq]
  rw [if_neg, if_neg,
    if_pos (by norm_num : (1 : ℚ)/100 ≤ 22517998136853 / 2 ^ 51)]
  · have hf1 : fmt2 (22517998136853 / 2 ^ 51) = "0.01" := by
      rw [fmt2_eval_nonneg _ 1 (by norm_num)
        (round_eq_of_bounds _ 1 (by norm_num) (by norm_num))]
      rfl
    have hf2 : fmt2 double345 = "3.45" := by
      rw [double345_eq]
      rw [fmt2_eval_nonneg _ 345 (by norm_num)
        (round_eq_of_bounds _ 345 (by norm_num) (by norm_num))]
      rfl
    rw [posLoopCount_double_diff, hf1, hf2]
    rfl
  · rintro ⟨h1, -⟩
    norm_num at h1
  · rintro (⟨h1, -⟩ | hp)
    · norm_num at h1
    · exact hprev hp

theorem show_memory_graph_double344_345 :
    show_memory_graph double344 double345 = "  |::@ -0.01 (3.44)\n" := by
  have hprev : double345 ≠ -1 := by
    rw [double345_eq]
    norm_num
  have hd : double344 - double345 = -(22517998136853 / 2 ^ 51) := by
    rw [double345_eq, double344_eq]
    norm_num
  unfold show_memory_graph
  rw [hd]
  rw [if_neg, if_neg, if_neg]
  · have hnl : negLoopCount (-(22517998136853 / 2 ^ 51) * 100) = 2 := by
      unfold negLoopCount
      rw [show (-(-(22517998136853 / 2 ^ 51) * 100) : ℚ)
            = 22517998136853 / 2 ^ 51 * 100 by ring]
      rw [show ⌈(22517998136853 / 2 ^ 51 * 100 : ℚ)⌉ = (2 : ℤ) from
        Int.ceil_eq_iff.mpr ⟨by norm_num, by norm_num⟩]
      rfl
    have hf1 : fmt2 (-(22517998136853 / 2 ^ 51)) = "-0.01" := by
      rw [fmt2_eval_neg _ 1 (by norm_num)
        (round_eq_of_bounds _ 1 (by norm_num) (by norm_num))]
      rfl
    have hf2 : fmt2 double344 = "3.44" := by
      rw [double344_eq]
      rw [fmt2_eval_nonneg _ 344 (by norm_num)
        (round_eq_of_bounds _ 344 (by norm_num) (by norm_num))]
      rfl
    rw [hnl, hf1, hf2]
    rfl
  · intro h1
    norm_num at h1
  · rintro ⟨-, h2⟩
    norm_num at h2
  · rintro (⟨-, h0⟩ | hp)
    · norm_num at h0
    · exact hprev hp

/-- C6 counterexample: on the binary64 values the compiled program
actually computes with for the literals 3.45 and 3.44 (see double345),
the difference is 22517998136853/2^51 = 0.010000000000000231, its
product with 100 lies strictly above 1, both glyph loops run twice,
and the encoder output is not the claimed single-glyph string in
either direction. -/
theorem C6_single_glyph_refuted :
    show_memory_graph double345 double344 ≠ "  |#* 0.01 (3.45)\n"
    ∧ show_memory_graph double344 double345 ≠ "  |:@ -0.01 (3.44)\n" := by
  constructor
  · rw [show_memory_graph_double345_344]
    decide
  · rw [show_memory_graph_double344_345]
    decide

/-- C6 amended: in the binary64 arithmetic of the program the encoder
fed curr = 3.45, prev = 3.44 receives the machine difference
0.010000000000000231; diff * 100 = 1.000000000000023, so the positive
run contains exactly two # glyphs before the * terminator (magnitude
still formatted 0.01), and symmetrically curr = 3.44, prev = 3.45
yields exactly two : glyphs before the @ terminator (magnitude -0.01),
not runs of length 1. -/
theorem C6_amended_double_runs :
    posLoopCount ((double345 - double344) * 100) = 2
    ∧ show_memory_graph double345 double344 = "  |##* 0.01 (3.45)\n"
    ∧ show_memory_graph double344 double345 = "  |::@ -0.01 (3.44)\n" := by
  refine ⟨?_, show_memory_graph_double345_344, show_memory_graph_double344_345⟩
  rw [double_diff_eq]
  exact posLoopCount_double_diff

/-- One cursor-affecting output action of the renderer: printing text
containing n newline characters, or an explicit relative cursor movement
of k lines (move_down and move_up in mySystemStats.c, the CSI E and
CSI F control sequences). -/
inductive Ev
  | print (newlines : ℕ)
  | down (k : ℕ)
  | up (k : ℕ)
  deriving DecidableEq

/-- Net downward cursor displacement, in lines, of one action. -/
def evDisp : Ev → ℤ
  | Ev.print n => (n : ℤ)
  | Ev.down k => (k : ℤ)
  | Ev.up k => -(k : ℤ)

/-- Net downward cursor displacement of a sequence of actions. -/
def disp (l : List Ev) : ℤ := (l.map evDisp).sum

/-- mySystemStats.c, show_sys_usage, body of the refresh loop for loop
counter i (which runs from sample down to 1): get_memory_info prints the
memory line ending in one newline, move_down(i+1) goes to the cpu line,
show_cpu_info prints one line, with graphics the cursor additionally goes
down (sample - i) lines, prints the one-line cpu graph and returns up
(sample - i + 1) lines, and finally move_up(i+2) returns to the memory
section. -/
def iterEvents (sample i : ℕ) (graph : Bool) : List Ev :=
  [Ev.print 1, Ev.down (i + 1), Ev.print 1] ++
    (if graph then [Ev.down (sample - i), Ev.print 1, Ev.up (sample - i + 1)] else []) ++
    [Ev.up (i + 2)]

/-- mySystemStats.c, show_sys_usage: the full cursor event trace of the
refresh-mode renderer: two header lines, sample reserved blank lines, the
two lines of show_core_info, move_up(sample+2) back to the memory
section, the sampling loop, and the final descent. -/
def show_sys_usage_events (sample : ℕ) (graph : Bool) : List Ev :=
  [Ev.print 2, Ev.print sample, Ev.print 2, Ev.up (sample + 2)] ++
    (((List.range sample).map (fun k => sample - k)).flatMap
      (fun i => iterEvents sample i graph)) ++
    [Ev.down 3] ++ (if graph then [Ev.down sample] else [])

/-- C2: in refresh mode, for every iteration of the render loop of
show_sys_usage (loop counter i between 1 and sample), the net cursor
displacement of the iteration body is exactly one line downward: the
cursor ends exactly one reserved memory row below the position where the
iteration began, with or without the graph overlay, so successive
iterations never scroll or overwrite the wrong line. (This renderer
prints no session block inside the loop, so the session count is
unchanged between iterations.) -/
theorem C2_refresh_net_displacement (sample i : ℕ) (graph : Bool)
    (h1 : 1 ≤ i) (h2 : i ≤ sample) :
    disp (iterEvents sample i graph) = 1 := by
  cases graph <;>
    simp [iterEvents, disp, evDisp] <;>
    omega

/-- C2 witness: the loop body for sample = 3, i = 2 with graphics on. -/
theorem C2_refresh_net_displacement_witness :
    disp (iterEvents 3 2 true) = 1 :=
  C2_refresh_net_displacement 3 2 true (by norm_num) (by norm_num)

/-- Output sections of one run at the granularity needed for the claim
about the OS-identity block. iter i marks the rendering of iteration i
of a sampling loop. -/
inductive Sect
  | nbrSamples
  | runtime
  | iter (i : ℕ)
  | users
  | osInfo
  deriving DecidableEq

/-- The iteration sections emitted by a sampling loop with the given
sample count, in order. -/
def iterSects (sample : ℕ) : List Sect := (List.range sample).map Sect.iter

/-- mySystemStats.c, main, after vertify_arg: everything printed before
the final show_sys_info call, following the five-way dispatch on
sequential_flag, sys_flag and user_flag. -/
def main_body (sample : ℕ) (sys user seq : Bool) : List Sect :=
  Sect.nbrSamples ::
    (if seq && sys then iterSects sample
     else if sys then Sect.runtime :: iterSects sample
     else if user then [Sect.runtime, Sect.users]
     else if seq then iterSects sample ++ [Sect.users]
     else Sect.runtime :: (iterSects sample ++ [Sect.users]))

/-- mySystemStats.c, main: the full section trace of a run; show_sys_info
(the OS-identity block) is the last statement of main. -/
def main_sects (sample : ℕ) (sys user seq : Bool) : List Sect :=
  main_body sample sys user seq ++ [Sect.osInfo]

theorem osInfo_not_mem_main_body (sample : ℕ) (sys user seq : Bool) :
    Sect.osInfo ∉ main_body sample sys user seq := by
  cases sys <;> cases user <;> cases seq <;>
    simp [main_body, iterSects]

/-- C8: for every configuration, the OS-identity block occurs exactly
once in the section trace of a run and is its very last section; in
every mode that runs a sampling loop (system mode, sequential mode, or
the default both-sections mode) all sample iterations occur strictly
before it. -/
theorem C8_os_identity_once_last (sample : ℕ) (sys user seq : Bool) :
    (main_sects sample sys user seq).count Sect.osInfo = 1
    ∧ (main_sects sample sys user seq).getLast? = some Sect.osInfo
    ∧ (∀ i, i < sample → (sys = true ∨ user = false) →
        Sect.iter i ∈ main_body sample sys user seq) := by
  refine ⟨?_, ?_, ?_⟩
  · rw [main_sects, List.count_append,
      List.count_eq_zero.mpr (osInfo_not_mem_main_body sample sys user seq)]
    rfl
  · rw [main_sects]
    simp
  · intro i hi hcase
    cases sys <;> cases user <;> cases seq <;>
      simp_all [main_body, iterSects]

/-- C8 witness: default configuration (no flags), sample = 2: the trace
contains one OS-identity section, placed last, and iteration 1 occurs in
the body before it. -/
theorem C8_os_identity_once_last_witness :
    (main_sects 2 false false false).count Sect.osInfo = 1
    ∧ Sect.iter 1 ∈ main_body 2 false false false :=
  ⟨(C8_os_identity_once_last 2 false false false).1,
   (C8_os_identity_once_last 2 false false false).2.2 1 (by norm_num) (Or.inr rfl)⟩

/-- One process-level operation of the concurrent coordinator: forking a
worker child for one metric, or reaping (waiting for) a child. -/
inductive POp
  | spawnMem
  | spawnCpu
  | spawnUser
  | reap
  deriving DecidableEq

/-- Process operations of one iteration of the concurrent show_sys_usage:
read_memory_info and read_cpu_info each fork one child when the system
section is active, and read_user_info forks one child when the user
section is active. The coordinator source contains no wait or waitpid
call anywhere (including the SIGINT handler, which exits directly), so
no reap operation ever appears in the trace. -/
def iterPOps (sys user : Bool) : List POp :=
  (if sys then [POp.spawnMem, POp.spawnCpu] else []) ++
    (if user then [POp.spawnUser] else [])

/-- Process operations of the whole sampling loop of the concurrent
show_sys_usage (sample iterations). -/
def show_sys_usage_pops : ℕ → Bool → Bool → List POp
  | 0, _, _ => []
  | n + 1, sys, user => iterPOps sys user ++ show_sys_usage_pops n sys user

/-- C9 (evaluation of the code against the claim): with both sections
active the coordinator forks three workers per iteration and performs
zero reap operations over the whole run, for every sample count; in
particular the number of outstanding spawned workers never returns to
zero before process exit. -/
theorem C9_workers_never_reaped (sample : ℕ) :
    (show_sys_usage_pops sample true true).count POp.reap = 0
    ∧ (show_sys_usage_pops sample true true).length = 3 * sample := by
  induction sample with
  | zero => simp [show_sys_usage_pops]
  | succ n ih =>
      refine ⟨?_, ?_⟩
      · simp [show_sys_usage_pops, iterPOps, List.count_append, ih.1]
      · simp [show_sys_usage_pops, iterPOps, ih.2]
        ring

/-- One command-line argument, one constructor per branch that the
strcmp/sscanf chain of vertify_arg distinguishes: the four literal
flags, a flagged samples value, a flagged tdelay value, a bare integer
(positional argument), or anything else. -/
inductive Arg
  | system
  | user
  | graphics
  | sequential
  | samples (n : ℤ)
  | tdelay (t : ℤ)
  | positional (n : ℤ)
  | other (s : String)

/-- The variables main passes by pointer into vertify_arg. -/
structure ArgState where
  sample : ℤ
  tdelay : ℤ
  sys_flag : Bool
  user_flag : Bool
  sequential_flag : Bool
  graph_flag : Bool
  sample_flag : Bool
  tdelay_flag : Bool
  deriving DecidableEq

/-- Initial state set up by main: sample defaults to 10, tdelay to 1,
all flags clear. -/
def initState : ArgState :=
  ⟨10, 1, false, false, false, false, false, false⟩

def samplesConsistentMsg : String :=
  "The value given to \"--samples=N\" should be consistent!"
def samplesPositiveMsg : String :=
  "The value given to \"--samples=N\" should be an positive integer!"
def tdelayConsistentMsg : String :=
  "The value given to \"--tdelay=T\" should be consistent!"
def tdelayPositiveMsg : String :=
  "The value given to \"--tdelay=T\" should be an positive integer"
def tdelayPositiveMsg2 : String :=
  "The value given to \"--tdelay=T\" should be an positive integer!"
def exclusiveMsg : String :=
  "Arguments \"--system\" and \"--user\" cannot be used together!"
def tooManyMsg : String :=
  "No more than 2 single integers can be taken as valid arguments."

/-- stats_functions.c, vertify_arg: validation loop over the argument
vector. The second parameter counts the positional integers already
consumed (positional_arg in C). handle_error terminates the program,
modelled as an error result. Note the guard in the second positional
branch: the C code there tests the sample variable, not the tdelay value
just stored, mirrored faithfully below. -/
def vertify_arg : List Arg → ℕ → ArgState → Except String ArgState
  | [], _, st => Except.ok st
  | Arg.system :: rest, pos, st =>
      if st.user_flag = false then
        vertify_arg rest pos { st with sys_flag := true }
      else Except.error exclusiveMsg
  | Arg.user :: rest, pos, st =>
      if st.sys_flag = false then
        vertify_arg rest pos { st with user_flag := true }
      else Except.error exclusiveMsg
  | Arg.graphics :: rest, pos, st =>
      vertify_arg rest pos { st with graph_flag := true }
  | Arg.sequential :: rest, pos, st =>
      vertify_arg rest pos { st with sequential_flag := true }
  | Arg.samples n :: rest, pos, st =>
      if st.sample_flag = false then
        if n ≤ 0 then Except.error samplesPositiveMsg
        else vertify_arg rest pos { st with sample := n, sample_flag := true }
      else if st.sample ≠ n then Except.error samplesConsistentMsg
      else if st.sample ≤ 0 then Except.error samplesPositiveMsg
      else vertify_arg rest pos st
  | Arg.tdelay t :: rest, pos, st =>
      if st.tdelay_flag = false then
        if t < 0 then Except.error tdelayPositiveMsg
        else vertify_arg rest pos { st with tdelay := t, tdelay_flag := true }
      else if st.tdelay ≠ t then Except.error tdelayConsistentMsg
      else if st.tdelay < 0 then Except.error tdelayPositiveMsg
      else vertify_arg rest pos st
  | Arg.positional n :: rest, pos, st =>
      if pos = 0 then
        if st.sample_flag = false ∨ st.sample = n then
          if n ≤ 0 then Except.error samplesPositiveMsg
          else vertify_arg rest (pos + 1) { st with sample := n, sample_flag := true }
        else Except.error samplesConsistentMsg
      else if pos = 1 then
        if st.tdelay_flag = false ∨ st.tdelay = n then
          -- C tests *sample <= 0 here although the branch stores tdelay
          if st.sample ≤ 0 then Except.error tdelayPositiveMsg2
          else vertify_arg rest (pos + 1) { st with tdelay := n, tdelay_flag := true }
        else Except.error tdelayConsistentMsg
      else Except.error tooManyMsg
  | Arg.other s :: _, _, _ =>
      Except.error ("Invalid arguments: \"" ++ s ++ "\"")

/-- C7 (evaluation of the code at the failing input): the argument
vector consisting of the two positional integers 5 and -3 passes
validation and yields tdelay = -3, because the second positional branch
guards on the sample value instead of the stored tdelay value; the
flagged form --tdelay=-3 is rejected as the claim describes. -/
theorem C7_negative_positional_tdelay_accepted :
    vertify_arg [Arg.positional 5, Arg.positional (-3)] 0 initState
      = Except.ok ⟨5, -3, false, false, false, false, true, true⟩
    ∧ vertify_arg [Arg.tdelay (-3)] 0 initState
      = Except.error tdelayPositiveMsg := by
  constructor <;> rfl

/-- The seven fields that get_memory_info reads from /proc/meminfo, in
kilobyte units as they appear in the file. -/
structure MemInfo where
  memTotal : ℤ
  memFree : ℤ
  buffers : ℤ
  cached : ℤ
  swapTotal : ℤ
  swapFree : ℤ
  sreclaimable : ℤ
  deriving DecidableEq

/-- get_memory_info: used physical memory in bytes,
(MemTotal - MemFree) - (Buffers + (Cached + SReclaimable)), each field
scaled by 1024 as in the C parsing loop. -/
def phys_used (m : MemInfo) : ℤ :=
  (m.memTotal * 1024 - m.memFree * 1024) -
    (m.buffers * 1024 + (m.cached * 1024 + m.sreclaimable * 1024))

/-- get_memory_info: total physical memory in bytes. -/
def total_phys (m : MemInfo) : ℤ := m.memTotal * 1024

/-- get_memory_info: used virtual memory in bytes,
phys_used + SwapTotal - SwapFree. -/
def virtual_used (m : MemInfo) : ℤ :=
  phys_used m + m.swapTotal * 1024 - m.swapFree * 1024

/-- get_memory_info: total virtual memory in bytes. -/
def total_virtual (m : MemInfo) : ℤ := m.memTotal * 1024 + m.swapTotal * 1024

/-- The 1e-9 scale factor the C code applies to byte counts before
printing them as gigabyte figures. -/
def gb : ℚ := 1 / 10 ^ 9

/-- Worker variant of get_memory_info (stats_functions.c of the
concurrent version): the single line the memory child writes to its
pipe, four %.2f gigabyte figures, ending either in the delta graph for
the physical value (previous value passed through unscaled, already in
gigabytes) or in a bare newline. -/
def mem_line (m : MemInfo) (previous_use : ℚ) (graph : Bool) : String :=
  fmt2 ((phys_used m : ℚ) * gb) ++ " GB / " ++ fmt2 ((total_phys m : ℚ) * gb) ++
    " GB  -- " ++ fmt2 ((virtual_used m : ℚ) * gb) ++ " GB / " ++
    fmt2 ((total_virtual m : ℚ) * gb) ++ " GB" ++
    (if graph then show_memory_graph ((phys_used m : ℚ) * gb) previous_use else "\n")

/-- Rounding of a rational to two decimal places; this is the value the
parent recovers when it re-parses the leading %.2f figure of mem_line
with sscanf("%lf GB / "). -/
def round2 (q : ℚ) : ℚ := ((round (q * 100) : ℤ) : ℚ) / 100

/-- Concurrent coordinator (show_sys_usage of the forking driver),
previous-physical-used threading: the list of prev_used values supplied
to the memory worker (and hence to the delta graph encoder) at each
iteration. The supplied value for the next iteration is the two-decimal
gigabyte figure sscanf recovers from the printed line, not the exact
captured value. -/
def coordPrevs : List MemInfo → ℚ → List ℚ
  | [], _ => []
  | m :: rest, prev => prev :: coordPrevs rest (round2 ((phys_used m : ℚ) * gb))

/-- Non-concurrent coordinator (mySystemStats.c, show_sys_usage),
previous-physical-used threading: men_use is overwritten each iteration
with the long value get_memory_info returns, so the value supplied at
each iteration is the exact byte count captured one iteration earlier.
The list records the supplied value for each iteration given the list
of captured phys_used values. -/
def coordPrevsExact : List ℤ → ℤ → List ℤ
  | [], _ => []
  | p :: rest, prev => prev :: coordPrevsExact rest p

/-- Concurrent coordinator with a fallible memory accessor: each
iteration the memory child either writes its line (accessor succeeded)
or exits after perror without writing anything (fopen of /proc/meminfo
failed, the exit(1) path); in that case the parent fgets on the empty
pipe returns NULL and the parent runs perror("fgets"); exit(1),
modelled as an error result that ends the run. On success the run
collects the printed line and threads the re-parsed previous value. -/
def runMemSys : List (Option MemInfo) → ℚ → Bool → Except String (List String)
  | [], _, _ => Except.ok []
  | none :: _, _, _ => Except.error "fgets"
  | some m :: rest, prev, graph =>
      match runMemSys rest (round2 ((phys_used m : ℚ) * gb)) graph with
      | Except.error e => Except.error e
      | Except.ok lines => Except.ok (mem_line m prev graph :: lines)

/-- A concrete meminfo snapshot whose used physical memory is
3456789504 bytes (3.456789504 GB, printed as 3.46). -/
def exMem : MemInfo := ⟨8000000, 4624229, 0, 0, 0, 0, 0⟩

/-- C3 counterexample: with a memory accessor that always fails, the
three-iteration run of the concurrent coordinator aborts with the fgets
error at the first iteration instead of rendering three degraded
iterations. -/
theorem C3_failing_accessor_aborts_run :
    runMemSys [none, none, none] (-1) false = Except.error "fgets" := by
  rfl

/-- C3 amended: whenever the memory accessor fails at any iteration of
the run (an unreadable metric source at any position in the input
schedule), the whole run of the concurrent coordinator aborts with the
fgets error: no degraded placeholder is rendered and no later iteration
runs. -/
theorem C3_amended_failure_is_fatal (srcs : List (Option MemInfo))
    (prev : ℚ) (graph : Bool) (h : none ∈ srcs) :
    runMemSys srcs prev graph = Except.error "fgets" := by
  induction srcs generalizing prev with
  | nil => cases h
  | cons hd tl ih =>
      cases hd with
      | none => rfl
      | some m =>
          have htl : none ∈ tl := by
            rcases List.mem_cons.mp h with h1 | h1
            · exact absurd h1 (by simp)
            · exact h1
          rw [runMemSys, ih _ htl]

/-- C3 amended witness: a two-iteration schedule whose second accessor
read fails; the run aborts. -/
theorem C3_amended_failure_is_fatal_witness :
    runMemSys [some exMem, none] (-1) false = Except.error "fgets" :=
  C3_amended_failure_is_fatal [some exMem, none] (-1) false (by simp)

/-- C4 counterexample: in the concurrent coordinator the value supplied
to iteration 1 is the re-parsed two-decimal figure 3.46, which differs
from the exact physical memory captured at iteration 0,
3456789504 bytes = 3.456789504 GB. -/
theorem C4_concurrent_carry_rounds :
    (coordPrevs [exMem, exMem] (-1))[1]? = some (346/100)
    ∧ ((346 : ℚ)/100) ≠ ((phys_used exMem : ℚ)) * gb := by
  have hp : (phys_used exMem : ℤ) = 3456789504 := by
    unfold phys_used exMem
    norm_num
  have hr : round (((phys_used exMem : ℚ)) * gb * 100) = 346 := by
    rw [hp]
    unfold gb
    apply round_eq_of_bounds
    · norm_num
    · norm_num
  constructor
  · show (coordPrevs [exMem, exMem] (-1))[1]? = some (346/100)
    simp only [coordPrevs]
    rw [round2, hr]
    norm_num
  · rw [hp]
    unfold gb
    norm_num

/-- C4 amended: in the non-concurrent coordinator of mySystemStats.c the
retained scalar is carried exactly: for every sequence of captured
phys_used values, every initial value and every iteration index i, the
previous value supplied at iteration i+1 equals the value captured at
iteration i. (In the concurrent coordinator the supplied value is
instead the two-decimal rounded figure re-parsed from the printed line,
and in the part_003 draft the update happens inside the forked child and
never reaches the parent.) -/
theorem C4_amended_exact_carry (ps : List ℤ) (init : ℤ) (i : ℕ)
    (h : i + 1 < ps.length) :
    (coordPrevsExact ps init)[i + 1]? = ps[i]? := by
  induction ps generalizing init i with
  | nil => simp at h
  | cons p rest ih =>
      cases i with
      | zero =>
          cases rest with
          | nil => simp at h
          | cons q tl => simp [coordPrevsExact]
      | succ j =>
          have hj : j + 1 < rest.length := by
            simpa using h
          simpa [coordPrevsExact] using ih p j hj

/-- C4 amended witness: captured values 5 then 7 with the initial
sentinel; the value supplied at iteration 1 is exactly 5. -/
theorem C4_amended_exact_carry_witness :
    (0 + 1 < ([5, 7] : List ℤ).length)
    ∧ (coordPrevsExact [5, 7] (-1000000000))[0 + 1]? = ([5, 7] : List ℤ)[0]? :=
  ⟨by norm_num, C4_amended_exact_carry [5, 7] (-1000000000) 0 (by norm_num)⟩

/-- The C cast (int) applied to a double: truncation toward zero. -/
def ctrunc (q : ℚ) : ℤ := if 0 ≤ q then ⌊q⌋ else ⌈q⌉

/-- mySystemStats.c, show_cpu_graph: iteration count of the bar loop
`for (int i = 0; i < (int) percent / 2; i ++)` (truncate, then C integer
division by 2; a nonpositive bound runs the loop zero times). -/
def cpu_bars_main (percent : ℚ) : ℕ := (ctrunc percent).toNat / 2

/-- Concurrent-version stats_functions.c, show_cpu_graph: iteration
count of the bar loop `for (int i = 0; i < (int) (percent * 2); i ++)`. -/
def cpu_bars_sf (percent : ℚ) : ℕ := (ctrunc (percent * 2)).toNat

/-- mySystemStats.c, show_cpu_graph: a tab, the bar run, then the
percentage via printf("%f"). -/
def show_cpu_graph_main (percent : ℚ) : String :=
  "\t" ++ String.mk (List.replicate (cpu_bars_main percent) '|') ++
    fmt6 percent ++ "\n"

/-- Concurrent-version stats_functions.c, show_cpu_graph: a tab, the
bar run, then a space and the percentage via printf(" %.2f"). -/
def show_cpu_graph_sf (percent : ℚ) : String :=
  "\t" ++ String.mk (List.replicate (cpu_bars_sf percent) '|') ++
    " " ++ fmt2 percent ++ "\n"

theorem fmt6_one : fmt6 1 = "1.000000" := by
  unfold fmt6 fmtFrac
  rw [if_neg (by norm_num)]
  rw [show (|(1:ℚ)| * (10:ℚ)^6) = ((1000000 : ℤ) : ℚ) by norm_num]
  rw [round_intCast]
  rfl

theorem fmt2_one : fmt2 1 = "1.00" := by
  unfold fmt2 fmtFrac
  rw [if_neg (by norm_num)]
  rw [show (|(1:ℚ)| * (10:ℚ)^2) = ((100 : ℤ) : ℚ) by norm_num]
  rw [round_intCast]
  rfl

/-- C10 counterexample: at percent = 1 the two coexisting CPU graph
encoders disagree: the mySystemStats.c variant prints no bars and a
six-decimal suffix, the concurrent variant prints two bars and a
two-decimal suffix with a leading space. -/
theorem C10_variants_differ_at_one :
    show_cpu_graph_main 1 = "\t1.000000\n"
    ∧ show_cpu_graph_sf 1 = "\t|| 1.00\n"
    ∧ show_cpu_graph_main 1 ≠ show_cpu_graph_sf 1 := by
  have e1 : cpu_bars_main 1 = 0 := by
    unfold cpu_bars_main ctrunc
    rw [if_pos (by norm_num : (0:ℚ) ≤ 1), Int.floor_one]
    rfl
  have e2 : cpu_bars_sf 1 = 2 := by
    unfold cpu_bars_sf ctrunc
    rw [if_pos (by norm_num : (0:ℚ) ≤ 1 * 2)]
    rw [show ((1:ℚ) * 2) = ((2:ℤ):ℚ) by norm_num, Int.floor_intCast]
    rfl
  have hA : show_cpu_graph_main 1 = "\t1.000000\n" := by
    unfold show_cpu_graph_main
    rw [e1, fmt6_one]
    rfl
  have hB : show_cpu_graph_sf 1 = "\t|| 1.00\n" := by
    unfold show_cpu_graph_sf
    rw [e2, fmt2_one]
    rfl
  refine ⟨hA, hB, ?_⟩
  rw [hA, hB]
  decide

/-- C10 amended: the two CPU graph encoders are not equivalent. Their
bar counts are trunc(percent)/2 and trunc(2·percent) respectively: for
every percent ≥ 1/2 the counts differ (the first is strictly smaller),
while for 0 ≤ percent < 1/2 both counts are zero (and only the suffix
formats distinguish the outputs, as the counterexample shows). -/
theorem C10_amended_bar_counts (p : ℚ) :
    (1/2 ≤ p → cpu_bars_main p < cpu_bars_sf p)
    ∧ (0 ≤ p → p < 1/2 → cpu_bars_main p = 0 ∧ cpu_bars_sf p = 0) := by
  constructor
  · intro hp
    have h0 : (0:ℚ) ≤ p := by linarith
    have h02 : (0:ℚ) ≤ p * 2 := by linarith
    unfold cpu_bars_main cpu_bars_sf ctrunc
    rw [if_pos h0, if_pos h02]
    have hf0 : 0 ≤ ⌊p⌋ := Int.floor_nonneg.mpr h0
    have hm1 : 1 ≤ ⌊p * 2⌋ := by
      apply Int.le_floor.mpr
      push_cast
      linarith
    have h2n : 2 * ⌊p⌋ ≤ ⌊p * 2⌋ := by
      apply Int.le_floor.mpr
      push_cast
      have := Int.floor_le p
      linarith
    omega
  · intro h0 h1
    unfold cpu_bars_main cpu_bars_sf ctrunc
    rw [if_pos h0, if_pos (by linarith : (0:ℚ) ≤ p * 2)]
    have e1 : ⌊p⌋ = 0 := Int.floor_eq_iff.mpr ⟨by push_cast; linarith, by push_cast; linarith⟩
    have e2 : ⌊p * 2⌋ = 0 := Int.floor_eq_iff.mpr ⟨by push_cast; linarith, by push_cast; linarith⟩
    rw [e1, e2]
    constructor <;> rfl

/-- C10 amended witness: at percent = 1 the bar counts differ, at
percent = 1/4 both are zero. -/
theorem C10_amended_bar_counts_witness :
    (cpu_bars_main 1 < cpu_bars_sf 1)
    ∧ (cpu_bars_main (1/4) = 0 ∧ cpu_bars_sf (1/4) = 0) :=
  ⟨(C10_amended_bar_counts 1).1 (by norm_num),
   (C10_amended_bar_counts (1/4)).2 (by norm_num) (by norm_num)⟩
